import Mathlib

/-!
Verification of the `issue595` experiment harness
(`src/experiments/issue595/main.py`).

The script parametrizes an experiment library: it builds an experiment from
revisions, configurations and a benchmark suite, registers a parser resource
and command, declares extra report attributes, extends the default table
attribute list in place, requests a comparison-table report and runs the
step pipeline.  Components whose code lives outside the repository snapshot
(the experiment builder, the step pipeline, the suite resolver and the report
generator) are modelled from the specification; everything else is embedded
directly from the source.
-/

/-- Summary functions attachable to an attribute; the source uses `gm`
(geometric mean) from `lab.reports`. -/
inductive SummaryFunction : Type
  | gm : SummaryFunction
deriving DecidableEq, Repr

/-- `lab.reports.Attribute(name, absolute=..., min_wins=..., functions=...)`
as used by the source: a named result metric with aggregation metadata. -/
structure Attribute : Type where
  name : String
  absolute : Bool
  min_wins : Bool
  functions : List SummaryFunction
deriving DecidableEq, Repr

/-- Python `list.extend` semantics as used at `main.py` line 56
(`attributes.extend(extra_attributes)`): all items of `extra` are appended
to `base`, in order, with no deduplication. -/
def listExtend {α : Type} (base extra : List α) : List α := base ++ extra

/-- The `CONFIGS` mapping of `main.py` (one named configuration). -/
def CONFIGS : List (String × List String) :=
  [("dfp-b50k",
    ["--search",
     "astar(merge_and_shrink(merge_strategy=merge_dfp,shrink_strategy=shrink_bisimulation(max_states=50000,threshold=1,greedy=false),label_reduction=label_reduction(before_shrinking=true,before_merging=false)))"])]

/-- `perfect_heuristic` attribute (main.py line 29). -/
def perfect_heuristic : Attribute :=
  ⟨"perfect_heuristic", true, false, []⟩

/-- `proved_unsolvability` attribute (main.py line 30). -/
def proved_unsolvability : Attribute :=
  ⟨"proved_unsolvability", true, false, []⟩

/-- `actual_search_time` attribute (main.py line 31): relative, min wins,
geometric-mean summary. -/
def actual_search_time : Attribute :=
  ⟨"actual_search_time", false, true, [SummaryFunction.gm]⟩

/-- `ms_construction_time` attribute (main.py line 34). -/
def ms_construction_time : Attribute :=
  ⟨"ms_construction_time", false, true, [SummaryFunction.gm]⟩

/-- `ms_abstraction_constructed` attribute (main.py line 35). -/
def ms_abstraction_constructed : Attribute :=
  ⟨"ms_abstraction_constructed", true, false, []⟩

/-- `ms_final_size` attribute (main.py line 36). -/
def ms_final_size : Attribute :=
  ⟨"ms_final_size", false, true, []⟩

/-- `ms_out_of_memory` attribute (main.py line 37). -/
def ms_out_of_memory : Attribute :=
  ⟨"ms_out_of_memory", true, true, []⟩

/-- `ms_out_of_time` attribute (main.py line 38). -/
def ms_out_of_time : Attribute :=
  ⟨"ms_out_of_time", true, true, []⟩

/-- `search_out_of_memory` attribute (main.py line 39). -/
def search_out_of_memory : Attribute :=
  ⟨"search_out_of_memory", true, true, []⟩

/-- `search_out_of_time` attribute (main.py line 40). -/
def search_out_of_time : Attribute :=
  ⟨"search_out_of_time", true, true, []⟩

/-- The `extra_attributes` list of `main.py` lines 42-54, in declaration
order. -/
def extra_attributes : List Attribute :=
  [perfect_heuristic,
   proved_unsolvability,
   actual_search_time,
   ms_construction_time,
   ms_abstraction_constructed,
   ms_final_size,
   ms_out_of_memory,
   ms_out_of_time,
   search_out_of_memory,
   search_out_of_time]

/-- References into the heap of Python list objects. -/
abbrev Ref := Nat

/-- Heap cell holding the shared `IssueExperiment.DEFAULT_TABLE_ATTRIBUTES`
list object. -/
def defaultTableAttributesRef : Ref := 0

/-- The attribute-setup fragment of `main` (lines 55-58), with Python list
objects modelled as heap cells so that aliasing is explicit:
cell 0 is the class-level `DEFAULT_TABLE_ATTRIBUTES` object (its contents
`defaults` are a parameter, since `common_setup.py` is not in the snapshot),
cell 1 is the freshly allocated `extra_attributes` object.
`attributes = exp.DEFAULT_TABLE_ATTRIBUTES` binds the same reference (no
copy); `attributes.extend(extra_attributes)` mutates the referenced cell in
place.  The returned reference is the one handed to
`add_comparison_table_step(attributes=attributes)`. -/
def mainAttrSetup (defaults : List Attribute) : List (List Attribute) × Ref :=
  let heap : List (List Attribute) := [defaults, extra_attributes]
  let attributesRef : Ref := defaultTableAttributesRef
  let heap := heap.set attributesRef
    (listExtend (heap.getD attributesRef []) (heap.getD 1 []))
  (heap, attributesRef)

/-- Operations `main` performs on the experiment object, in statement
order. -/
inductive MainEvent : Type
  | constructExperiment : MainEvent
  | mutateExperiment : String → MainEvent
  | runAllSteps : MainEvent
deriving DecidableEq, Repr

/-- Whether an event is a setup-phase mutation. -/
def MainEvent.isMutation : MainEvent → Bool
  | MainEvent.mutateExperiment _ => true
  | _ => false

/-- The trace of experiment-object operations performed by `main`
(main.py lines 17-60), in source order: one construction (lines 17-24),
setup mutations (lines 25, 26, 58), and the single terminal `exp()` call
(line 60). -/
def mainEvents : List MainEvent :=
  [MainEvent.constructExperiment,
   MainEvent.mutateExperiment "add_resource",
   MainEvent.mutateExperiment "add_command",
   MainEvent.mutateExperiment "add_comparison_table_step",
   MainEvent.runAllSteps]

/-- Error taxonomy of the harness (spec section 7): `ConfigurationError` is
fatal at build time. -/
inductive BuildError : Type
  | configurationError : String → BuildError
deriving DecidableEq, Repr

/-- The experiment-definition object (spec section 3): revisions,
configurations, suite, test suite, concurrency bound, contact, plus the
registered resources and commands. -/
structure Experiment : Type where
  revisions : List String
  configs : List (String × List String)
  suite : List String
  test_suite : List String
  processes : Nat
  email : String
  resources : List (String × String × String)
  commands : List (String × List String)
deriving DecidableEq, Repr

/-- `true` iff the list of names contains a duplicate. -/
def dupName : List String → Bool
  | [] => false
  | n :: rest => rest.contains n || dupName rest

/-- Modelled from the spec: the `common_setup.IssueExperiment` builder is not
in the repository snapshot; section 4.3 requires `revisions` a non-empty
ordered sequence, `configs` a non-empty mapping with unique names,
`max_processes` a positive integer, failing with a `ConfigurationError` at
build time otherwise (section 7).  The caller in `main.py` may hand over
`revisions=None`, modelled as `Option.none`. -/
def buildExperiment (revisions : Option (List String))
    (configs : List (String × List String))
    (suite test_suite : List String) (processes : Nat) (email : String) :
    Except BuildError Experiment :=
  match revisions with
  | none =>
      Except.error (BuildError.configurationError "revisions must be a non-empty sequence")
  | some revs =>
      if revs.isEmpty then
        Except.error (BuildError.configurationError "revisions must be a non-empty sequence")
      else if configs.isEmpty then
        Except.error (BuildError.configurationError "configs must be a non-empty mapping")
      else if dupName (configs.map Prod.fst) then
        Except.error (BuildError.configurationError "duplicate configuration name")
      else if processes = 0 then
        Except.error (BuildError.configurationError "max_processes must be positive")
      else
        Except.ok ⟨revs, configs, suite, test_suite, processes, email, [], []⟩

/-- Modelled from the spec: `add_resource(logical_name, source_path,
dest_path)` (section 4.3, implemented by the external library) mutates the
experiment in place with no external I/O; re-adding an already registered
logical name is an error. -/
def add_resource (e : Experiment) (logical_name source_path dest_path : String) :
    Except BuildError Experiment :=
  if (e.resources.map (fun r => r.1)).contains logical_name then
    Except.error (BuildError.configurationError ("duplicate resource name " ++ logical_name))
  else
    Except.ok { e with resources := e.resources ++ [(logical_name, source_path, dest_path)] }

/-- Modelled from the spec: `add_command(name, invocation)` (section 4.3,
implemented by the external library) mutates the experiment in place with no
external I/O; re-adding an already registered name is an error. -/
def add_command (e : Experiment) (name : String) (invocation : List String) :
    Except BuildError Experiment :=
  if (e.commands.map Prod.fst).contains name then
    Except.error (BuildError.configurationError ("duplicate command name " ++ name))
  else
    Except.ok { e with commands := e.commands ++ [(name, invocation)] }

/-- Modelled from the spec: report columns are keyed by configuration name
(section 4.5); the set of configuration names appearing in the report is the
set of names declared in the experiment's configs mapping. -/
def reportConfigNames (e : Experiment) : List String :=
  e.configs.map Prod.fst

/-- A named pipeline step over a state type (spec section 4.4): its action
either returns the updated state or raises a cause. -/
structure Step (σ : Type) : Type where
  name : String
  action : σ → Except String σ

/-- A `StepFailure` carries the failing step's name and the underlying
cause (spec sections 4.4 and 7). -/
structure StepFailure : Type where
  step_name : String
  cause : String
deriving DecidableEq, Repr

/-- Modelled from the spec: the step pipeline (section 4.4, implemented by
the external library) executes steps strictly in declaration order; the
first failing step halts the pipeline and its failure propagates.  Returns
the final state, the names of the steps that were executed (in order) and
the failure, if any. -/
def runSteps {σ : Type} : List (Step σ) → σ → σ × List String × Option StepFailure
  | [], s => (s, [], none)
  | st :: rest, s =>
      match st.action s with
      | Except.ok s2 =>
          let r := runSteps rest s2
          (r.1, st.name :: r.2.1, r.2.2)
      | Except.error c => (s, [st.name], some ⟨st.name, c⟩)

/-- Modelled from the spec: the comparison-table report (section 4.5,
implemented by the external library) restricts relative-attribute aggregates
to the problems solved by every compared configuration. -/
def commonSolvedSubset (configs problems : List String)
    (solved : String → String → Bool) : List String :=
  problems.filter (fun p => configs.all (fun c => solved c p))

/-- Modelled from the spec: the set of problems over which the comparison
table aggregates an attribute for configuration `c` (section 4.5): absolute
attributes are summed over all problems; relative attributes are aggregated
only over the common-solved subset. -/
def aggregationDomain (a : Attribute) (configs problems : List String)
    (solved : String → String → Bool) (_c : String) : List String :=
  if a.absolute then problems else commonSolvedSubset configs problems solved

/-- Modelled from the spec: `downward.suites` is not in the repository
snapshot; the suite resolver (sections 4.2 and 6) maps a suite identifier to
a fixed ordered sequence of benchmark problem references and fails with
`UnknownSuiteError` on an unrecognized identifier.  The concrete sequence
for `optimal_with_ipc11` stands in for the library's fixed table. -/
def suite_optimal_with_ipc11 : List String :=
  ["airport:p01-airport1-p1.pddl", "depot:pfile1", "gripper:prob01",
   "parking-opt11-strips:pfile03-011.pddl", "visitall-opt11-strips:problem02-full.pddl"]

/-- The resolver's lookup table of known suite identifiers. -/
def suiteTable : List (String × List String) :=
  [("optimal_with_ipc11", suite_optimal_with_ipc11)]

/-- Modelled from the spec: `resolve_suite(identifier)` (section 4.2) looks
the identifier up in the fixed table and fails with `UnknownSuiteError`
otherwise. -/
def resolve_suite (identifier : String) : Except String (List String) :=
  match suiteTable.find? (fun entry => entry.1 = identifier) with
  | some entry => Except.ok entry.2
  | none => Except.error ("UnknownSuiteError: " ++ identifier)

/-- The `SUITE` binding of `main.py` line 11. -/
def SUITE : List String := suite_optimal_with_ipc11

/-- The arguments `main` hands to the `IssueExperiment` builder. -/
structure BuilderCall : Type where
  revisions : Option (List String)
  configs : List (String × List String)
  suite : List String
  test_suite : List String
  processes : Nat
  email : String
deriving DecidableEq, Repr

/-- The builder invocation of `main.py` lines 17-24: `main(revisions=None)`
forwards its `revisions` argument to `IssueExperiment` verbatim, with no
validation of its own. -/
def mainIssueExperimentCall (revisions : Option (List String) := none) : BuilderCall :=
  { revisions := revisions
    configs := CONFIGS
    suite := SUITE
    test_suite := ["depot:pfile1"]
    processes := 4
    email := "silvan.sievers@unibas.ch" }

/-- C1 counterexample: the merge performed by the code is Python
`list.extend`, which keeps both declarations of a name; for a base and an
extra attribute sharing the name `coverage` (with different direction), the
merged sequence contains the name twice, not exactly once. -/
theorem extend_dedup_counterexample :
    ¬ (((listExtend [(⟨"coverage", true, false, []⟩ : Attribute)]
          [(⟨"coverage", true, true, []⟩ : Attribute)]).map
            Attribute.name).count "coverage" = 1) := by
  decide

/-- C1 (amended): the merged attribute sequence handed to the
comparison-table report is the base sequence followed by the extra sequence
in declaration order, with no deduplication, override or warning: each name
occurs once per declaration, so a name declared in both sets occurs in the
merge once for each set it occurs in. -/
theorem extend_concatenates_counts (base extra : List Attribute) (n : String) :
    listExtend base extra = base ++ extra ∧
    ((listExtend base extra).map Attribute.name).count n
      = ((base.map Attribute.name).count n) + ((extra.map Attribute.name).count n) := by
  refine ⟨rfl, ?_⟩
  simp [listExtend, List.count_append]

/-- C7: in `main`'s trace of operations on the experiment object, the
experiment is constructed exactly once and first, executed exactly once via
the terminal run-all-steps call which is the last operation, and every
operation in between is a setup-phase mutation; nothing follows the run
call. -/
theorem experiment_lifecycle_trace :
    mainEvents.head? = some MainEvent.constructExperiment ∧
    mainEvents.getLast? = some MainEvent.runAllSteps ∧
    mainEvents.count MainEvent.constructExperiment = 1 ∧
    mainEvents.count MainEvent.runAllSteps = 1 ∧
    ((mainEvents.drop 1).dropLast.all MainEvent.isMutation) = true := by
  decide

/-- C9: the attribute list handed to `add_comparison_table_step` is the very
heap cell holding `exp.DEFAULT_TABLE_ATTRIBUTES`; after setup that cell
holds the default sequence followed by the ten extra attributes in
declaration order (no deduplication or override), and the shared default
list object itself is left changed, whatever its original contents were. -/
theorem table_attributes_alias_and_extend (defaults : List Attribute) :
    (mainAttrSetup defaults).2 = defaultTableAttributesRef ∧
    (mainAttrSetup defaults).1.getD defaultTableAttributesRef [] = defaults ++ extra_attributes ∧
    extra_attributes.map Attribute.name =
      ["perfect_heuristic", "proved_unsolvability", "actual_search_time",
       "ms_construction_time", "ms_abstraction_constructed", "ms_final_size",
       "ms_out_of_memory", "ms_out_of_time", "search_out_of_memory",
       "search_out_of_time"] ∧
    (mainAttrSetup defaults).1.getD defaultTableAttributesRef [] ≠ defaults := by
  refine ⟨rfl, rfl, by decide, ?_⟩
  show defaults ++ extra_attributes ≠ defaults
  intro h
  have hl := congrArg List.length h
  simp [extra_attributes] at hl

/-- C10: `main` accepts being called with no argument, in which case the
`revisions` it forwards to the `IssueExperiment` builder defaults to `None`;
whatever `revisions` is passed, `main` forwards it to the builder unchanged,
performing no validation of its own. -/
theorem main_forwards_revisions_unchecked :
    (mainIssueExperimentCall).revisions = none ∧
    ∀ r : Option (List String), (mainIssueExperimentCall r).revisions = r :=
  ⟨rfl, fun _ => rfl⟩

/-- If a pipeline run reports no failure, the executed steps are exactly the
declared steps, in declaration order. -/
theorem runSteps_ok_names {σ : Type} (l : List (Step σ)) :
    ∀ (s s2 : σ) (exec : List String),
      runSteps l s = (s2, exec, none) → exec = l.map Step.name := by
  induction l with
  | nil =>
    intro s s2 exec h
    simp only [runSteps, Prod.mk.injEq] at h
    simp [← h.2.1]
  | cons st rest ih =>
    intro s s2 exec h
    simp only [runSteps] at h
    cases hst : st.action s with
    | ok s3 =>
      rw [hst] at h
      rcases hr : runSteps rest s3 with ⟨s4, exec4, f4⟩
      simp only [hr, Prod.mk.injEq] at h
      obtain ⟨-, h2, h3⟩ := h
      subst h3
      rw [← h2, List.map_cons, ih s3 s4 exec4 hr]
    | error c =>
      rw [hst] at h
      simp at h

/-- C2: if the steps before `f` all succeed and `f`'s action fails on the
state they produce, then running the whole pipeline executes exactly the
steps up to and including `f` in declaration order, the steps after `f` are
never executed, and the run reports a `StepFailure` carrying `f`'s name and
the cause; there is no retry and the state is the one reached before `f`
(no rollback). -/
theorem pipeline_abort_after_failure {σ : Type} (pre : List (Step σ)) (f : Step σ)
    (post : List (Step σ)) (s s2 : σ) (exec : List String) (c : String)
    (hpre : runSteps pre s = (s2, exec, none))
    (hf : f.action s2 = Except.error c) :
    runSteps (pre ++ f :: post) s
      = (s2, pre.map Step.name ++ [f.name], some ⟨f.name, c⟩) := by
  induction pre generalizing s exec with
  | nil =>
    simp only [runSteps, Prod.mk.injEq] at hpre
    obtain ⟨h1, -, -⟩ := hpre
    subst h1
    simp [runSteps, hf]
  | cons st pre' ih =>
    simp only [runSteps] at hpre
    cases hst : st.action s with
    | ok s3 =>
      rw [hst] at hpre
      rcases hr : runSteps pre' s3 with ⟨s4, exec4, f4⟩
      simp only [hr, Prod.mk.injEq] at hpre
      obtain ⟨h1, -, h3⟩ := hpre
      subst h1
      subst h3
      simp only [List.cons_append, runSteps]
      simp only [hst]
      simp [ih s3 exec4 hr]
    | error c2 =>
      rw [hst] at hpre
      simp at hpre

/-- Demo pipeline step 1: records its execution in the state. -/
def demoStep1 : Step (List Nat) := ⟨"step1", fun s => Except.ok (s ++ [1])⟩

/-- Demo pipeline step 2: always fails. -/
def demoStep2 : Step (List Nat) := ⟨"step2", fun _ => Except.error "boom"⟩

/-- Demo pipeline step 3: records its execution in the state. -/
def demoStep3 : Step (List Nat) := ⟨"step3", fun s => Except.ok (s ++ [3])⟩

/-- Demo pipeline step 4: records its execution in the state. -/
def demoStep4 : Step (List Nat) := ⟨"step4", fun s => Except.ok (s ++ [4])⟩

/-- Witness for C2: in a 4-step pipeline whose second step fails, only steps
1 and 2 execute, the side-effect counter shows only step 1's effect, and the
failure names step 2 with its cause. -/
theorem pipeline_abort_after_failure_witness :
    runSteps [demoStep1] ([] : List Nat) = ([1], ["step1"], none) ∧
    demoStep2.action [1] = Except.error "boom" ∧
    runSteps ([demoStep1] ++ demoStep2 :: [demoStep3, demoStep4]) ([] : List Nat)
      = ([1], ["step1", "step2"], some ⟨"step2", "boom"⟩) :=
  ⟨rfl, rfl,
   pipeline_abort_after_failure [demoStep1] demoStep2 [demoStep3, demoStep4]
     [] [1] ["step1"] "boom" rfl rfl⟩

/-- C8: suite resolution is deterministic and idempotent: if resolving an
identifier yields a sequence of problem references, resolving the same
identifier again yields the identical sequence. -/
theorem resolve_suite_idempotent (identifier : String) (xs : List String)
    (h : resolve_suite identifier = Except.ok xs) :
    resolve_suite identifier = Except.ok xs ∧
    ∀ ys, resolve_suite identifier = Except.ok ys → ys = xs :=
  ⟨h, fun _ hy => by
    rw [h] at hy
    exact (Except.ok.inj hy).symm⟩

/-- Witness for C8: resolving `optimal_with_ipc11` succeeds, and a second
resolution returns the identical sequence. -/
theorem resolve_suite_idempotent_witness :
    resolve_suite "optimal_with_ipc11" = Except.ok suite_optimal_with_ipc11 ∧
    suite_optimal_with_ipc11 = suite_optimal_with_ipc11 :=
  ⟨(resolve_suite_idempotent "optimal_with_ipc11" suite_optimal_with_ipc11 (by rfl)).1,
   (resolve_suite_idempotent "optimal_with_ipc11" suite_optimal_with_ipc11
     (by rfl)).2 suite_optimal_with_ipc11 (by rfl)⟩

/-- C3: for a relative (non-absolute) attribute, the comparison table's
per-configuration aggregation domain is the common-solved subset — the
problems solved by every compared configuration — the same for every
configuration; absolute attributes are aggregated over all problems. -/
theorem relative_aggregate_common_subset (a : Attribute)
    (configs problems : List String) (solved : String → String → Bool)
    (c : String) (h : a.absolute = false) :
    aggregationDomain a configs problems solved c
      = commonSolvedSubset configs problems solved ∧
    (∀ p, p ∈ aggregationDomain a configs problems solved c ↔
        p ∈ problems ∧ ∀ cf ∈ configs, solved cf p = true) ∧
    (∀ b : Attribute, b.absolute = true →
        aggregationDomain b configs problems solved c = problems) := by
  refine ⟨by simp [aggregationDomain, h], ?_, ?_⟩
  · intro p
    simp [aggregationDomain, h, commonSolvedSubset, List.mem_filter]
  · intro b hb
    simp [aggregationDomain, hb]

/-- Solved relation of the spec's aggregation scenario: configuration `A`
solves `p1` and `p2`, configuration `B` solves `p1` and `p3`. -/
def demoSolved (c p : String) : Bool :=
  (c == "A" && (p == "p1" || p == "p2")) || (c == "B" && (p == "p1" || p == "p3"))

/-- Witness for C3: with `A` solving `{p1,p2}` and `B` solving `{p1,p3}`,
the relative-attribute aggregation domain (here for `actual_search_time`)
for both `A` and `B` is `{p1}` only. -/
theorem relative_aggregate_common_subset_witness :
    actual_search_time.absolute = false ∧
    aggregationDomain actual_search_time ["A", "B"] ["p1", "p2", "p3"] demoSolved "A" = ["p1"] ∧
    aggregationDomain actual_search_time ["A", "B"] ["p1", "p2", "p3"] demoSolved "B" = ["p1"] :=
  ⟨rfl,
   (relative_aggregate_common_subset actual_search_time ["A", "B"]
       ["p1", "p2", "p3"] demoSolved "A" rfl).1.trans (by decide),
   (relative_aggregate_common_subset actual_search_time ["A", "B"]
       ["p1", "p2", "p3"] demoSolved "B" rfl).1.trans (by decide)⟩

/-- C4: building with `None` or empty revisions, or with an empty configs
mapping, fails with a `ConfigurationError` before any run starts; a
successful build guarantees a non-empty revision sequence, a non-empty
configs mapping and a positive process bound. -/
theorem build_validates_nonempty (revisions : Option (List String))
    (configs : List (String × List String)) (suite ts : List String)
    (procs : Nat) (email : String) :
    (∃ msg, buildExperiment none configs suite ts procs email
        = Except.error (BuildError.configurationError msg)) ∧
    (∃ msg, buildExperiment (some []) configs suite ts procs email
        = Except.error (BuildError.configurationError msg)) ∧
    (configs = [] → ∃ msg, buildExperiment revisions configs suite ts procs email
        = Except.error (BuildError.configurationError msg)) ∧
    (∀ e, buildExperiment revisions configs suite ts procs email = Except.ok e →
        e.revisions ≠ [] ∧ e.configs ≠ [] ∧ 0 < e.processes) := by
  refine ⟨⟨_, rfl⟩, ⟨_, rfl⟩, ?_, ?_⟩
  · intro hc
    subst hc
    cases revisions with
    | none => exact ⟨_, rfl⟩
    | some revs =>
      cases revs with
      | nil => exact ⟨_, rfl⟩
      | cons r rs => exact ⟨_, rfl⟩
  · intro e h
    cases revisions with
    | none => simp [buildExperiment] at h
    | some revs =>
      simp only [buildExperiment] at h
      split at h
      · simp at h
      · split at h
        · simp at h
        · split at h
          · simp at h
          · split at h
            · simp at h
            · rename_i hrev hcfg hdup hproc
              obtain rfl := (Except.ok.inj h).symm
              refine ⟨?_, ?_, ?_⟩
              · simpa [List.isEmpty_iff] using hrev
              · simpa [List.isEmpty_iff] using hcfg
              · exact Nat.pos_of_ne_zero hproc

/-- The experiment a successful demo build produces. -/
def demoBuiltExp : Experiment :=
  ⟨["issue595-base", "issue595-v1"], CONFIGS, SUITE, ["depot:pfile1"], 4,
   "silvan.sievers@unibas.ch", [], []⟩

/-- Witness for C4: the build succeeds on the script's own arguments with a
two-element revision list, and the resulting experiment has non-empty
revisions, non-empty configs and a positive process bound. -/
theorem build_validates_nonempty_witness :
    buildExperiment (some ["issue595-base", "issue595-v1"]) CONFIGS SUITE
        ["depot:pfile1"] 4 "silvan.sievers@unibas.ch" = Except.ok demoBuiltExp ∧
    demoBuiltExp.revisions ≠ [] ∧ demoBuiltExp.configs ≠ [] ∧ 0 < demoBuiltExp.processes :=
  ⟨rfl,
   (build_validates_nonempty (some ["issue595-base", "issue595-v1"]) CONFIGS SUITE
       ["depot:pfile1"] 4 "silvan.sievers@unibas.ch").2.2.2 demoBuiltExp rfl⟩

/-- `dupName` decides freedom from duplicates. -/
theorem dupName_eq_false_iff (l : List String) : dupName l = false ↔ l.Nodup := by
  induction l with
  | nil => simp [dupName]
  | cons n rest ih =>
    simp [dupName, List.nodup_cons, ih, List.contains_iff_exists_mem_beq]

/-- C5: the configuration names appearing in the report are exactly the
names declared in the configs mapping, without duplicates, and the built
experiment keeps the declared configurations verbatim (no deduplication by
argument content); two entries sharing one name make the build fail. -/
theorem report_names_match_configs (revisions : Option (List String))
    (configs : List (String × List String)) (suite ts : List String)
    (procs : Nat) (email : String) :
    (∀ e, buildExperiment revisions configs suite ts procs email = Except.ok e →
        reportConfigNames e = configs.map Prod.fst ∧
        (reportConfigNames e).Nodup ∧
        e.configs = configs) ∧
    (∀ (n : String) (a1 a2 : List String) (rest : List (String × List String)),
        (buildExperiment revisions ((n, a1) :: (n, a2) :: rest) suite ts procs email).isOk
          = false) := by
  constructor
  · intro e h
    cases revisions with
    | none => simp [buildExperiment] at h
    | some revs =>
      simp only [buildExperiment] at h
      split at h
      · simp at h
      · split at h
        · simp at h
        · split at h
          · simp at h
          · split at h
            · simp at h
            · rename_i hrev hcfg hdup hproc
              obtain rfl := (Except.ok.inj h).symm
              refine ⟨rfl, ?_, rfl⟩
              show (configs.map Prod.fst).Nodup
              rw [← dupName_eq_false_iff]
              simpa using hdup
  · intro n a1 a2 rest
    have hdup : dupName (n :: n :: rest.map Prod.fst) = true := by
      simp [dupName, List.contains_cons]
    cases revisions with
    | none => rfl
    | some revs =>
      cases hre : revs.isEmpty with
      | true => simp [buildExperiment, hre, Except.isOk, Except.toBool]
      | false => simp [buildExperiment, hre, hdup, Except.isOk, Except.toBool]

/-- Two configurations with distinct names and identical argument content:
the builder must keep both. -/
def demoConfigsTwoNames : List (String × List String) :=
  [("a", ["--search", "astar(blind())"]), ("b", ["--search", "astar(blind())"])]

/-- The experiment built from `demoConfigsTwoNames`. -/
def demoExpTwo : Experiment :=
  ⟨["r1"], demoConfigsTwoNames, ["p1"], ["p1"], 2, "x@y", [], []⟩

/-- Witness for C5: building with two same-content, distinct-name
configurations keeps both names in the report without duplicates, and
building with two distinct argument strings under one shared name fails. -/
theorem report_names_match_configs_witness :
    buildExperiment (some ["r1"]) demoConfigsTwoNames ["p1"] ["p1"] 2 "x@y"
      = Except.ok demoExpTwo ∧
    reportConfigNames demoExpTwo = ["a", "b"] ∧
    (reportConfigNames demoExpTwo).Nodup ∧
    (buildExperiment (some ["r1"]) [("a", ["argsX"]), ("a", ["argsY"])]
        ["p1"] ["p1"] 2 "x@y").isOk = false :=
  ⟨rfl,
   ((report_names_match_configs (some ["r1"]) demoConfigsTwoNames ["p1"] ["p1"] 2
       "x@y").1 demoExpTwo rfl).1.trans (by decide),
   ((report_names_match_configs (some ["r1"]) demoConfigsTwoNames ["p1"] ["p1"] 2
       "x@y").1 demoExpTwo rfl).2.1,
   (report_names_match_configs (some ["r1"]) [("a", ["argsX"]), ("a", ["argsY"])]
       ["p1"] ["p1"] 2 "x@y").2 "a" ["argsX"] ["argsY"] []⟩

/-- C6: `add_resource` and `add_command` are pure in-place updates of the
experiment: adding under a fresh logical name succeeds and changes only the
corresponding field (appending the new entry), while re-adding an already
registered logical name is an error. -/
theorem add_resource_command_registration (e : Experiment)
    (ln src dst nm : String) (inv : List String) :
    ((e.resources.map (fun r => r.1)).contains ln = true →
        ∃ msg, add_resource e ln src dst
          = Except.error (BuildError.configurationError msg)) ∧
    ((e.resources.map (fun r => r.1)).contains ln = false →
        add_resource e ln src dst
          = Except.ok { e with resources := e.resources ++ [(ln, src, dst)] }) ∧
    ((e.commands.map Prod.fst).contains nm = true →
        ∃ msg, add_command e nm inv
          = Except.error (BuildError.configurationError msg)) ∧
    ((e.commands.map Prod.fst).contains nm = false →
        add_command e nm inv
          = Except.ok { e with commands := e.commands ++ [(nm, inv)] }) := by
  refine ⟨?_, ?_, ?_, ?_⟩
  · intro h
    refine ⟨"duplicate resource name " ++ ln, ?_⟩
    simp only [add_resource, h]
    simp
  · intro h
    simp only [add_resource, h]
    simp
  · intro h
    refine ⟨"duplicate command name " ++ nm, ?_⟩
    simp only [add_command, h]
    simp
  · intro h
    simp only [add_command, h]
    simp

/-- `demoBuiltExp` after the script's `add_resource` call. -/
def demoExpWithResource : Experiment :=
  { demoBuiltExp with resources := [("ms_parser", "ms-parser.py", "ms-parser.py")] }

/-- `demoExpWithResource` after the script's `add_command` call. -/
def demoExpWithCommand : Experiment :=
  { demoExpWithResource with commands := [("ms-parser", ["ms_parser"])] }

/-- Witness for C6: the script's own `add_resource` and `add_command` calls
succeed on fresh names, and re-adding either registered name is an error. -/
theorem add_resource_command_registration_witness :
    add_resource demoBuiltExp "ms_parser" "ms-parser.py" "ms-parser.py"
      = Except.ok demoExpWithResource ∧
    add_command demoExpWithResource "ms-parser" ["ms_parser"]
      = Except.ok demoExpWithCommand ∧
    (∃ msg, add_resource demoExpWithCommand "ms_parser" "other.py" "other.py"
        = Except.error (BuildError.configurationError msg)) ∧
    (∃ msg, add_command demoExpWithCommand "ms-parser" ["other"]
        = Except.error (BuildError.configurationError msg)) :=
  ⟨(add_resource_command_registration demoBuiltExp "ms_parser" "ms-parser.py"
      "ms-parser.py" "ms-parser" ["ms_parser"]).2.1 (by decide),
   (add_resource_command_registration demoExpWithResource "ms_parser" "ms-parser.py"
      "ms-parser.py" "ms-parser" ["ms_parser"]).2.2.2 (by decide),
   (add_resource_command_registration demoExpWithCommand "ms_parser" "other.py"
      "other.py" "ms-parser" ["other"]).1 (by decide),
   (add_resource_command_registration demoExpWithCommand "ms_parser" "other.py"
      "other.py" "ms-parser" ["other"]).2.2.1 (by decide)⟩
